import Mathlib

/-!
Verification of the data reconciliation and join pipeline implemented in
`airflow/config/read_delta.py`.

The script reads an activity table from Delta-lake storage, reads employee and
commute-validation tables from PostgreSQL, aggregates activities per employee,
reconciles the join-key column types, performs an inner join followed by a
left-outer join, and persists the result to Delta storage with a fallback path
for a missing activity table.

The embedding below models each function of the script over explicit data:
dataframes become lists of rows, external I/O (the Spark delta load, the JDBC
read, the object-store write) becomes function parameters returning `Except`,
Python exceptions become an explicit error type, and the environment becomes a
partial map from variable names to strings.
-/

set_option autoImplicit false

namespace ReadDelta

/-- Spark SQL column data types that occur for the join key in this pipeline.
Mirrors pyspark `DataType` values as compared at line 303/308 of the script. -/
inductive DataType where
  | IntegerType
  | LongType
  | StringType
  | DoubleType
  deriving DecidableEq, Repr

/-- Python `str(dataType)` for a pyspark type object, used by the script to
compare column types (`str(validation_df.schema["id_employee"].dataType) !=
str(ref_type)`). -/
def dataTypeStr : DataType → String
  | DataType.IntegerType => "IntegerType()"
  | DataType.LongType => "LongType()"
  | DataType.StringType => "StringType()"
  | DataType.DoubleType => "DoubleType()"

/-- A Spark SQL value in a column: null, an integral value, a string, or a
numeric (rational stands in for the numeric types where exact arithmetic is
meant). -/
inductive SqlValue where
  | null
  | int (n : Int)
  | str (s : String)
  | rat (q : ℚ)
  deriving DecidableEq, Repr

/-- The value of a list of decimal digits read most-significant first. -/
def digitsVal (cs : List Char) : Nat :=
  cs.foldl (fun acc c => acc * 10 + (c.toNat - Char.toNat '0')) 0

/-- Whitespace trimming at both ends of a character list, matching what
`String.trim` removes before Spark-style numeric parsing. -/
def trimChars (cs : List Char) : List Char :=
  ((cs.dropWhile Char.isWhitespace).reverse.dropWhile Char.isWhitespace).reverse

/-- Parse of an unsigned decimal string, as Spark's non-ANSI string-to-integral
cast accepts it after sign handling: digits with an optional dot-separated
fractional part, the fraction being discarded (truncation, so CAST of "3.5"
reads 3); a string with no digits or with any other character fails.
(Scientific notation, which Spark's decimal parser also accepts, is exercised
by no theorem below and is not modelled.) -/
def parseDecimalTrunc (cs : List Char) : Option Nat :=
  match cs.span Char.isDigit with
  | (intPart, []) => if intPart.isEmpty then none else some (digitsVal intPart)
  | (intPart, '.' :: frac) =>
      if frac.all Char.isDigit && !(intPart.isEmpty && frac.isEmpty) then
        some (digitsVal intPart)
      else none
  | _ => none

/-- Spark non-ANSI parse of a string as an integral value: trim, optional
sign, decimal digits with an optional fractional part that is truncated
toward zero ("-3.7" reads -3). -/
def parseIntString (s : String) : Option Int :=
  match trimChars s.toList with
  | '-' :: cs => (parseDecimalTrunc cs).map (fun n => -(n : Int))
  | '+' :: cs => (parseDecimalTrunc cs).map (fun n => (n : Int))
  | cs => (parseDecimalTrunc cs).map (fun n => (n : Int))

/-- Parse of an unsigned decimal string as an exact rational, the fragment of
Spark's string-to-double parse the theorems rely on (scientific notation and
the special float literals are not modelled; rationals stand for doubles, so
binary rounding is not modelled either). -/
def parseDecimalRat (cs : List Char) : Option ℚ :=
  match cs.span Char.isDigit with
  | (intPart, []) => if intPart.isEmpty then none else some ((digitsVal intPart : ℚ))
  | (intPart, '.' :: frac) =>
      if frac.all Char.isDigit && !(intPart.isEmpty && frac.isEmpty) then
        some ((digitsVal intPart : ℚ) + (digitsVal frac : ℚ) / (10 : ℚ) ^ frac.length)
      else none
  | _ => none

/-- Spark parse of a string as a double value: trim, optional sign, decimal
digits with optional fractional part, kept exactly. -/
def parseRatString (s : String) : Option ℚ :=
  match trimChars s.toList with
  | '-' :: cs => (parseDecimalRat cs).map (fun q => -q)
  | '+' :: cs => parseDecimalRat cs
  | cs => parseDecimalRat cs

/-- Two's-complement wrap of an integral value into w bits — the JVM
narrowing conversion Spark applies when casting between integral widths. -/
def wrapInt (w : Nat) (n : Int) : Int :=
  ((n + 2 ^ (w - 1)) % 2 ^ w) - 2 ^ (w - 1)

/-- Smallest 32-bit signed value. -/
def int32Min : Int := -(2 ^ 31)

/-- Largest 32-bit signed value. -/
def int32Max : Int := 2 ^ 31 - 1

/-- Smallest 64-bit signed value. -/
def int64Min : Int := -(2 ^ 63)

/-- Largest 64-bit signed value. -/
def int64Max : Int := 2 ^ 63 - 1

/-- Truncation of a rational toward zero — the direction of the JVM
double-to-integral conversion (`Int.div` is T-division). -/
def ratTruncToInt (q : ℚ) : Int := Int.tdiv q.num q.den

/-- Saturation into a closed interval, as Scala's `Double.toInt` and
`Double.toLong` clamp out-of-range values. -/
def clampInt (lo hi n : Int) : Int := max lo (min n hi)

/-- Spark `Column.cast` value semantics in the default (non-ANSI) mode used by
the script: a cast never errors; a string the target integral type cannot
represent — unparseable text or a parsed value outside the type's range —
becomes null; a string parses to a double when it is numeric; integral
narrowing wraps; double-to-integral truncates toward zero and saturates.
Null is preserved by every cast. Numeric-to-string keeps the exact value
(Java's textual rendering of doubles is abstracted; no theorem evaluates it). -/
def castValue (v : SqlValue) (t : DataType) : SqlValue :=
  match v, t with
  | SqlValue.null, _ => SqlValue.null
  | SqlValue.int n, DataType.IntegerType => SqlValue.int (wrapInt 32 n)
  | SqlValue.int n, DataType.LongType => SqlValue.int (wrapInt 64 n)
  | SqlValue.int n, DataType.StringType => SqlValue.str (toString n)
  | SqlValue.int n, DataType.DoubleType => SqlValue.rat (n : ℚ)
  | SqlValue.str s, DataType.StringType => SqlValue.str s
  | SqlValue.str s, DataType.IntegerType =>
      match parseIntString s with
      | some n => if int32Min ≤ n ∧ n ≤ int32Max then SqlValue.int n else SqlValue.null
      | none => SqlValue.null
  | SqlValue.str s, DataType.LongType =>
      match parseIntString s with
      | some n => if int64Min ≤ n ∧ n ≤ int64Max then SqlValue.int n else SqlValue.null
      | none => SqlValue.null
  | SqlValue.str s, DataType.DoubleType =>
      match parseRatString s with
      | some q => SqlValue.rat q
      | none => SqlValue.null
  | SqlValue.rat q, DataType.DoubleType => SqlValue.rat q
  | SqlValue.rat q, DataType.IntegerType =>
      SqlValue.int (clampInt int32Min int32Max (ratTruncToInt q))
  | SqlValue.rat q, DataType.LongType =>
      SqlValue.int (clampInt int64Min int64Max (ratTruncToInt q))
  | SqlValue.rat q, DataType.StringType => SqlValue.str (toString q)

/-- A dataframe as seen by `ensure_compatible_types`: the declared type of its
`id_employee` column, and its rows, each carrying the `id_employee` value and
the values of the remaining columns. -/
structure TypedDF where
  idType : DataType
  rows : List (SqlValue × List SqlValue)
  deriving DecidableEq, Repr

/-- Model of `df.withColumn("id_employee", df["id_employee"].cast(ref_type))`:
a new dataframe whose key column has the target type and whose key values are
cast one by one, other columns untouched. -/
def cast_id_column (df : TypedDF) (t : DataType) : TypedDF :=
  { idType := t, rows := df.rows.map (fun r => (castValue r.1 t, r.2)) }

/-- Model of `ensure_compatible_types` (lines 282-313): the employees
dataframe's `id_employee` type is the reference; each of the validation and
activity dataframes is cast to it when `str` of its type differs, and passed
through unchanged otherwise. -/
def ensure_compatible_types (employee_df validation_df activity_df : TypedDF) :
    TypedDF × TypedDF × TypedDF :=
  let ref_type := employee_df.idType
  let validation_df2 :=
    if dataTypeStr validation_df.idType ≠ dataTypeStr ref_type then
      cast_id_column validation_df ref_type
    else validation_df
  let activity_df2 :=
    if dataTypeStr activity_df.idType ≠ dataTypeStr ref_type then
      cast_id_column activity_df ref_type
    else activity_df
  (employee_df, validation_df2, activity_df2)

/-- The distinct `id_employee` keys of an activity dataframe, in order of
first occurrence: the grouping keys of `groupBy("id_employee")`. Activity rows
are pairs of `id_employee` and `activity_duration`. -/
def groupKeys (rows : List (Int × ℚ)) : List Int :=
  (rows.map Prod.fst).dedup

/-- Model of `transform_activity_data` (lines 266-279): group the activity
rows by `id_employee` and emit, per group, `count_activity` (the number of
rows of the group, Spark `count("id_employee")` over non-null keys) and
`mean_duration` (Spark `avg("activity_duration")`, the sum of the durations of
the group divided by their number). -/
def transform_activity_data (rows : List (Int × ℚ)) : List (Int × Nat × ℚ) :=
  (groupKeys rows).map (fun k =>
    let grp := rows.filter (fun r => r.1 == k)
    (k, grp.length, ((grp.map Prod.snd).sum) / (grp.length : ℚ)))

/-- Model of `employee_df.join(validation_df, "id_employee")` (line 468): the
inner join on the key column. Employee rows are `(id_employee, employee_name)`,
validation rows are `(id_employee, commute_distance)`; every matching pair
produces one output row. -/
def innerJoinEmpVal (emp : List (Int × String)) (val : List (Int × ℚ)) :
    List (Int × String × ℚ) :=
  emp.flatMap (fun e =>
    (val.filter (fun v => v.1 == e.1)).map (fun v => (e.1, e.2, v.2)))

/-- The rows the left-outer join produces for one left row: one row per
matching aggregate row, or a single null-extended row when no aggregate
matches. -/
def leftMatches (agg : List (Int × Nat × ℚ)) (l : Int × String × ℚ) :
    List (Int × String × ℚ × Option (Nat × ℚ)) :=
  match agg.filter (fun a => a.1 == l.1) with
  | [] => [(l.1, l.2.1, l.2.2, none)]
  | ms => ms.map (fun a => (l.1, l.2.1, l.2.2, some a.2))

/-- Model of `employee_join_validation_df.join(activity_transformed_df,
"id_employee", "left")` (line 473): the left-outer join on the key column.
A left row with no matching aggregate survives once with a null (here `none`)
aggregate; a left row with matches produces one row per match. -/
def leftJoinAgg (left : List (Int × String × ℚ)) (agg : List (Int × Nat × ℚ)) :
    List (Int × String × ℚ × Option (Nat × ℚ)) :=
  left.flatMap (leftMatches agg)

/-- The Python exceptions the script raises or propagates, by class. -/
inductive PipelineError where
  | sourceNotFound (msg : String)
  | valueError (msg : String)
  | attributeError (msg : String)
  | readError (msg : String)
  | writeError (msg : String)
  deriving DecidableEq, Repr

/-- The lakehouse path the script builds at line 161. -/
def deltaTablePath (bucket table : String) : String :=
  "s3a://" ++ bucket ++ "/tables/" ++ table

/-- The message of the FileNotFoundError raised at line 208. -/
def deltaNotFoundMsg (bucket table : String) : String :=
  "La table Delta n\x27existe pas à l\x27emplacement " ++ deltaTablePath bucket table ++
    " ou n\x27est pas accessible"

/-- Model of `read_delta_table` (lines 147-208). The underlying Spark load at
the Delta path is the function argument `load`; its failure carries the
original exception text. The script catches every exception from the load,
prints diagnostics, and raises FileNotFoundError, so every failure outcome of
`load` — existence or connectivity alike — is mapped to `sourceNotFound`. -/
def read_delta_table (bucket table : String)
    (load : String → Except String (List (Int × ℚ))) :
    Except PipelineError (List (Int × ℚ)) :=
  match load (deltaTablePath bucket table) with
  | Except.ok df => Except.ok df
  | Except.error _ => Except.error (PipelineError.sourceNotFound (deltaNotFoundMsg bucket table))

/-- The JDBC url built at line 239 from host, port and database name. -/
def jdbcUrl (host port db : String) : String :=
  "jdbc:postgresql://" ++ host ++ ":" ++ port ++ "/" ++ db

/-- Python truthiness of an optional environment string: `os.environ.get`
returns `None` when the variable is unset, and the script's guards are
`if not value:`, which reject `None` and the empty string alike. -/
def isFalsy : Option String → Bool
  | none => true
  | some s => s == ""

/-- Model of `read_sql_table` (lines 211-263) for a table whose rows have type
alpha. The environment is a partial map; the JDBC read takes the url, the
table name and the connection properties. Each required variable that is
falsy — unset or empty, per the script's `if not value:` guards — raises
ValueError with its own message before the read is attempted; host and port
fall back to defaults when unset (an empty string, being present, is used as
is, matching `os.environ.get` with a default); a failing read is re-raised
unchanged (the bare `raise` at line 263). The null-value check of lines
249-251 never fires since the properties are built from non-null strings. -/
def read_sql_table {α : Type} (env : String → Option String) (table_name : String)
    (jdbcRead : String → String → List (String × String) → Except String (List α)) :
    Except PipelineError (List α) :=
  let postgres_user := env "DB_USER"
  if isFalsy postgres_user then
    Except.error (PipelineError.valueError "Variable d\x27environnement DB_USER non définie")
  else
    let postgres_password := env "DB_PASSWORD"
    if isFalsy postgres_password then
      Except.error (PipelineError.valueError "Variable d\x27environnement DB_PASSWORD non définie")
    else
      let postgres_host := (env "DB_HOST").getD "business-postgres"
      let postgres_port := (env "DB_PORT").getD "5432"
      let postgres_db := env "DB_NAME"
      if isFalsy postgres_db then
        Except.error (PipelineError.valueError "Variable d\x27environnement DB_NAME non définie")
      else
        let url := jdbcUrl postgres_host postgres_port (postgres_db.getD "")
        let properties := [("user", postgres_user.getD ""), ("password", postgres_password.getD ""),
                           ("driver", "org.postgresql.Driver")]
        match jdbcRead url table_name properties with
        | Except.ok df => Except.ok df
        | Except.error e => Except.error (PipelineError.readError e)

/-- An untyped dataframe handed to the sink writer: column names and rows of
values. -/
structure DeltaDF where
  cols : List String
  rows : List (List SqlValue)
  deriving DecidableEq, Repr

/-- One write issued against the object store: target path, save mode, the
overwriteSchema option, and the schema and rows written. -/
structure WriteRequest where
  path : String
  mode : String
  overwriteSchema : Bool
  cols : List String
  rows : List (List SqlValue)
  deriving DecidableEq, Repr

/-- The diagnostic classification of a failed sink write (lines 390-393). -/
inductive WriteErrClass where
  | bucketMissing
  | wrongFS
  | other
  deriving DecidableEq, Repr

/-- Substring test, standing for Python `in` on strings. -/
def containsSubstr (s pat : String) : Bool :=
  (s.splitOn pat).length != 1

/-- Model of the error classification in `save_to_delta` (lines 390-393):
the exception text is string-matched for a missing bucket, then for a
filesystem-scheme mismatch, and anything else is left unclassified. -/
def classify_write_error (e : String) : WriteErrClass :=
  if containsSubstr e "NoSuchBucket" then WriteErrClass.bucketMissing
  else if containsSubstr e "Wrong FS" then WriteErrClass.wrongFS
  else WriteErrClass.other

/-- The user-facing messages the classification adds (lines 391 and 393);
an unclassified error adds none. -/
def class_messages (output_bucket : String) : WriteErrClass → List String
  | WriteErrClass.bucketMissing =>
      ["Le bucket \x27" ++ output_bucket ++
        "\x27 n\x27existe pas dans MinIO. Assurez-vous de le créer avant d\x27exécuter ce script."]
  | WriteErrClass.wrongFS =>
      ["Problème de système de fichiers. Vérifiez que vous n\x27avez pas configuré fs.defaultFS dans votre session Spark."]
  | WriteErrClass.other => []

/-- The preliminary test write of `save_to_delta` (lines 372-375): a limit-1
sample of the dataframe, written in overwrite mode to `test_write` under the
output bucket, without the overwriteSchema option. -/
def test_write_request (df : DeltaDF) (output_bucket : String) : WriteRequest :=
  { path := "s3a://" ++ output_bucket ++ "/test_write"
    mode := "overwrite"
    overwriteSchema := false
    cols := df.cols
    rows := df.rows.take 1 }

/-- The main write of `save_to_delta` (lines 381-384): the full dataframe, in
overwrite mode with overwriteSchema, at the suffix under the output bucket. -/
def main_write_request (df : DeltaDF) (output_bucket path_suffix : String) : WriteRequest :=
  { path := "s3a://" ++ output_bucket ++ "/" ++ path_suffix
    mode := "overwrite"
    overwriteSchema := true
    cols := df.cols
    rows := df.rows }

/-- What a call to `save_to_delta` did: the bucket it provisioned, the writes
it issued in order, the messages it printed, and its outcome. -/
structure SaveResult where
  provisioned : List String
  attempts : List WriteRequest
  messages : List String
  result : Except String Unit
  deriving Repr

/-- Model of `save_to_delta` (lines 354-395). The object store is the
function argument `storage`. The bucket is provisioned first
(`ensure_bucket_exists`, which swallows all of its own errors). The test
write is attempted and its failure only logged (lines 371-378); the main
write is then attempted unconditionally, and its failure is classified for
messaging and re-raised unchanged (the bare `raise` at line 395). -/
def save_to_delta (df : DeltaDF) (output_bucket path_suffix : String)
    (storage : WriteRequest → Except String Unit) : SaveResult :=
  let testReq := test_write_request df output_bucket
  let mainReq := main_write_request df output_bucket path_suffix
  let testMsgs :=
    match storage testReq with
    | Except.ok _ => ["Test d\x27écriture dans MinIO réussi"]
    | Except.error test_e =>
        ["Test d\x27écriture échoué, mais on continue avec l\x27écriture principale: " ++ test_e]
  match storage mainReq with
  | Except.ok _ =>
      { provisioned := [output_bucket]
        attempts := [testReq, mainReq]
        messages := testMsgs ++ ["Données sauvegardées avec succès!"]
        result := Except.ok () }
  | Except.error e =>
      { provisioned := [output_bucket]
        attempts := [testReq, mainReq]
        messages := testMsgs ++ ["Erreur lors de la sauvegarde des données: " ++ e] ++
          class_messages output_bucket (classify_write_error e)
        result := Except.error e }

/-- The column names of the final joined dataframe saved at line 478, and
also the column list the fallback handler intends at line 486. -/
def finalColumns : List String :=
  ["id_employee", "employee_name", "commute_distance", "count_activity", "mean_duration"]

/-- Encoding of one final joined row into untyped column values, null-filling
the aggregate columns of an unmatched row. -/
def encodeFinalRow (r : Int × String × ℚ × Option (Nat × ℚ)) : List SqlValue :=
  [SqlValue.int r.1, SqlValue.str r.2.1, SqlValue.rat r.2.2.1] ++
    (match r.2.2.2 with
     | none => [SqlValue.null, SqlValue.null]
     | some cm => [SqlValue.int cm.1, SqlValue.rat cm.2])

/-- The public attributes of a pyspark `SparkSession` object (pyspark 3.x
documented API). Schemas are built from `pyspark.sql.types.StructType`, which
is not a session method: no `createStructType` attribute exists, so the
lookup the fallback handler performs at line 487 raises AttributeError. -/
def sparkSessionAttrs : List String :=
  ["builder", "version", "conf", "sparkContext", "catalog", "newSession", "range",
   "createDataFrame", "sql", "table", "read", "readStream", "streams", "udf", "stop",
   "getActiveSession"]

/-- Model of the `except FileNotFoundError` handler of `main` (lines
480-489). It binds the five intended fallback column names (line 486, a
binding the handler never uses), then evaluates `spark.createStructType([])`
(line 487). Because `SparkSession` has no `createStructType` attribute, the
attribute lookup raises AttributeError before any dataframe is built, so the
fallback save at line 489 is never reached; were the lookup to succeed with
an empty schema, the dataframe written would have zero columns. -/
def main_fallback (output_bucket : String)
    (storage : WriteRequest → Except String Unit) :
    List WriteRequest × Except PipelineError Unit :=
  let columns := finalColumns
  if "createStructType" ∈ sparkSessionAttrs then
    let empty_df : DeltaDF := { cols := [], rows := [] }
    let r := save_to_delta empty_df output_bucket "empty_fallback" storage
    (r.attempts,
      match r.result with
      | Except.ok _ => Except.ok ()
      | Except.error e => Except.error (PipelineError.writeError e))
  else
    ([], Except.error
      (PipelineError.attributeError
        "\x27SparkSession\x27 object has no attribute \x27createStructType\x27"))

/-- Model of the pipeline `main` (lines 398-494), after argument parsing and
the diagnostic probes (which never raise). External effects are the function
arguments: the Spark delta load, the environment, the JDBC reads of the
employees and validations tables, and the object-store writes. Returns the
writes issued and the run's outcome. A FileNotFoundError from the lakehouse
read enters the fallback handler; any other exception is re-raised (lines
490-492). At lines 463-465 `ensure_compatible_types` is applied; with the
integer-keyed datasets of this model every dataframe already carries the
reference key type, so the reconciler passes each one through unchanged. -/
def main_run (input_bucket table output_bucket : String)
    (load : String → Except String (List (Int × ℚ)))
    (env : String → Option String)
    (jdbcEmployees : String → String → List (String × String) → Except String (List (Int × String)))
    (jdbcValidations : String → String → List (String × String) → Except String (List (Int × ℚ)))
    (storage : WriteRequest → Except String Unit) :
    List WriteRequest × Except PipelineError Unit :=
  match read_delta_table input_bucket table load with
  | Except.error (PipelineError.sourceNotFound _) => main_fallback output_bucket storage
  | Except.error e => ([], Except.error e)
  | Except.ok activity_df =>
    match read_sql_table env "sport_advantages.employees_masked" jdbcEmployees with
    | Except.error e => ([], Except.error e)
    | Except.ok employee_df =>
      match read_sql_table env "sport_advantages.commute_validations" jdbcValidations with
      | Except.error e => ([], Except.error e)
      | Except.ok validation_df =>
        let activity_transformed_df := transform_activity_data activity_df
        let employee_join_validation_df := innerJoinEmpVal employee_df validation_df
        let final_df := leftJoinAgg employee_join_validation_df activity_transformed_df
        let r := save_to_delta
          { cols := finalColumns, rows := final_df.map encodeFinalRow }
          output_bucket "joined_data" storage
        (r.attempts,
          match r.result with
          | Except.ok _ => Except.ok ()
          | Except.error e => Except.error (PipelineError.writeError e))

/-- The two top-level functions of the module that are both bound to the name
`main`: the pipeline driver defined at line 398 and the connection-test
script defined at line 501. -/
inductive MainImpl where
  | pipelineMain
  | testConnectionMain
  deriving DecidableEq, Repr

/-- The module-level bindings of the name `main`, in source order: the
pipeline driver at line 398, then the connection-test function at line 501. -/
def module_main_bindings : List (String × MainImpl) :=
  [("main", MainImpl.pipelineMain), ("main", MainImpl.testConnectionMain)]

/-- Python top-level name resolution: a later `def` of the same name rebinds
it, so a lookup sees the last binding. -/
def resolve_global (bindings : List (String × MainImpl)) (n : String) : Option MainImpl :=
  ((bindings.filter (fun b => b.1 == n)).getLast?).map Prod.snd

/-- The function the guard `if __name__ == "__main__": main()` (lines
526-527) actually calls. -/
def script_entry_point : Option MainImpl :=
  resolve_global module_main_bindings "main"

/-- Whether a `main` implementation parses the three command-line parameters
(`--input_bucket`, `--table`, `--output_bucket`, lines 400-404). The
connection-test `main` builds a session and shows a literal dataframe; it
never touches `sys.argv`. -/
def parses_cli_args : MainImpl → Bool
  | MainImpl.pipelineMain => true
  | MainImpl.testConnectionMain => false

/-- Whether a `main` implementation executes the reconciliation pipeline
(read, aggregate, reconcile, join, save). -/
def runs_reconciliation_pipeline : MainImpl → Bool
  | MainImpl.pipelineMain => true
  | MainImpl.testConnectionMain => false

/-- The `str` comparison the script performs on pyspark type objects (line
303/308) separates exactly the same types as the types themselves. -/
theorem dataTypeStr_inj (a b : DataType) : dataTypeStr a = dataTypeStr b ↔ a = b := by
  cases a <;> cases b <;> simp [dataTypeStr]

/-- Sanity of the cast model: Spark's non-ANSI string-to-integer cast
truncates a decimal string, so "3.5" reads as 3, not null. -/
theorem parseIntString_truncates_decimal : parseIntString "3.5" = some 3 := by decide

/-- Sanity of the cast model: truncation is toward zero on negatives. -/
theorem parseIntString_truncates_toward_zero : parseIntString "-3.7" = some (-3) := by decide

/-- Sanity of the cast model: text with no numeric form fails to parse. -/
theorem parseIntString_rejects_nonnumeric : parseIntString "abc" = none := by decide

/-- Sanity of the cast model: a parsed value outside the 32-bit range is
nulled by the string-to-IntegerType cast, not kept. -/
theorem castValue_int32_overflow_null :
    castValue (SqlValue.str "2147483648") DataType.IntegerType = SqlValue.null := by decide

/-- Sanity of the cast model: a numeric string cast to double parses to its
value rather than null. -/
theorem castValue_numeric_string_double :
    castValue (SqlValue.str "3.5") DataType.DoubleType = SqlValue.rat (7 / 2) := by
  have h3 : digitsVal ['3'] = 3 := by decide
  have h5 : digitsVal ['5'] = 5 := by decide
  have h : castValue (SqlValue.str "3.5") DataType.DoubleType =
      SqlValue.rat ((digitsVal ['3'] : ℚ) + (digitsVal ['5'] : ℚ) / (10 : ℚ) ^ (1 : Nat)) := rfl
  rw [h, h3, h5]
  norm_num

theorem transform_map_fst (rows : List (Int × ℚ)) :
    (transform_activity_data rows).map (fun r => r.1) = (rows.map Prod.fst).dedup := by
  unfold transform_activity_data
  rw [List.map_map]
  exact List.map_id _

theorem transform_keys_nodup (rows : List (Int × ℚ)) :
    ((transform_activity_data rows).map (fun r => r.1)).Nodup := by
  rw [transform_map_fst]
  exact List.nodup_dedup _

theorem filter_key_len_le_one {α : Type} (agg : List (Int × α)) (k : Int)
    (h : (agg.map (fun a => a.1)).Nodup) :
    (agg.filter (fun a => a.1 == k)).length ≤ 1 := by
  induction agg with
  | nil => simp
  | cons a t ih =>
      simp only [List.map_cons, List.nodup_cons] at h
      by_cases hk : a.1 = k
      · have hnil : t.filter (fun a => a.1 == k) = [] := by
          rw [List.filter_eq_nil_iff]
          intro x hx
          simp only [beq_iff_eq]
          intro hxk
          exact h.1 (by rw [hk, ← hxk]; exact List.mem_map_of_mem _ hx)
        simp [List.filter_cons, hk, hnil]
      · have := ih h.2
        simpa [List.filter_cons, hk] using this

theorem leftMatches_length_one (agg : List (Int × Nat × ℚ)) (l : Int × String × ℚ)
    (h : (agg.map (fun a => a.1)).Nodup) :
    (leftMatches agg l).length = 1 := by
  have hle := filter_key_len_le_one agg l.1 h
  unfold leftMatches
  cases hms : agg.filter (fun a => a.1 == l.1) with
  | nil => rfl
  | cons m rest =>
      rw [hms] at hle
      simp only [List.length_cons] at hle
      have hrest : rest = [] := List.length_eq_zero.mp (by omega)
      subst hrest
      rfl

theorem leftJoinAgg_length (left : List (Int × String × ℚ)) (agg : List (Int × Nat × ℚ))
    (h : (agg.map (fun a => a.1)).Nodup) :
    (leftJoinAgg left agg).length = left.length := by
  induction left with
  | nil => rfl
  | cons l t ih =>
      simp only [leftJoinAgg, List.flatMap_cons, List.length_append] at *
      rw [ih, leftMatches_length_one agg l h, List.length_cons]
      omega

theorem count_fst_eq_filter_length (rows : List (Int × ℚ)) (k : Int) :
    (rows.map Prod.fst).count k = (rows.filter (fun r => r.1 == k)).length := by
  rw [List.count_eq_countP, List.countP_map, ← List.countP_eq_length_filter]
  rfl

/-- C7: a dependent dataset whose join-key column type already equals the
reference type taken from the employees dataset is returned by
`ensure_compatible_types` unchanged in content and schema — no cast is
applied and no error of any kind arises (the function is total); the
reference dataset itself is always returned untouched. -/
theorem ensure_compatible_types_passthrough (employee_df validation_df activity_df : TypedDF) :
    (validation_df.idType = employee_df.idType →
      (ensure_compatible_types employee_df validation_df activity_df).2.1 = validation_df) ∧
    (activity_df.idType = employee_df.idType →
      (ensure_compatible_types employee_df validation_df activity_df).2.2 = activity_df) ∧
    (ensure_compatible_types employee_df validation_df activity_df).1 = employee_df := by
  refine ⟨fun h => ?_, fun h => ?_, rfl⟩ <;> simp [ensure_compatible_types, h]

/-- Witness for C7 at concrete dataframes: both dependents already carry the
integer reference type and are passed through unchanged. -/
theorem ensure_compatible_types_passthrough_witness :
    (ensure_compatible_types
        { idType := DataType.IntegerType, rows := [(SqlValue.int 1, [SqlValue.str "Ada"])] }
        { idType := DataType.IntegerType, rows := [(SqlValue.int 1, [SqlValue.rat 3])] }
        { idType := DataType.IntegerType, rows := [(SqlValue.int 1, [SqlValue.rat 2])] }).2.1 =
      { idType := DataType.IntegerType, rows := [(SqlValue.int 1, [SqlValue.rat 3])] } ∧
    (ensure_compatible_types
        { idType := DataType.IntegerType, rows := [(SqlValue.int 1, [SqlValue.str "Ada"])] }
        { idType := DataType.IntegerType, rows := [(SqlValue.int 1, [SqlValue.rat 3])] }
        { idType := DataType.IntegerType, rows := [(SqlValue.int 1, [SqlValue.rat 2])] }).2.2 =
      { idType := DataType.IntegerType, rows := [(SqlValue.int 1, [SqlValue.rat 2])] } :=
  ⟨(ensure_compatible_types_passthrough _ _ _).1 rfl,
   (ensure_compatible_types_passthrough _ _ _).2.1 rfl⟩

/-- C3 counterexample: reconciling an activity dataset whose string join-key
column holds "abc" against the integer reference type does not raise any
TypeCoercionError — `ensure_compatible_types` is total and returns a
dataframe in which "abc" has been replaced by null, exactly the silent null
substitution the claim excludes. -/
theorem ensure_compatible_types_abc_null_counterexample :
    (ensure_compatible_types
        { idType := DataType.IntegerType, rows := [(SqlValue.int 1, [])] }
        { idType := DataType.IntegerType, rows := [] }
        { idType := DataType.StringType, rows := [(SqlValue.str "abc", [SqlValue.rat 30])] }).2.2 =
      { idType := DataType.IntegerType, rows := [(SqlValue.null, [SqlValue.rat 30])] } := by
  decide

/-- C3 amended: for every dependent activity dataset with a string-typed
join-key column reconciled against an integer reference type, a key value
that cannot be parsed as an integer is silently replaced by null in the
reconciled dataset; no TypeCoercionError exists in the code. -/
theorem ensure_compatible_types_nulls_unrepresentable
    (employee_df validation_df activity_df : TypedDF) (s : String) (rest : List SqlValue)
    (href : employee_df.idType = DataType.IntegerType)
    (hact : activity_df.idType = DataType.StringType)
    (hmem : (SqlValue.str s, rest) ∈ activity_df.rows)
    (hbad : parseIntString s = none) :
    (SqlValue.null, rest) ∈
      (ensure_compatible_types employee_df validation_df activity_df).2.2.rows := by
  have hcast : (ensure_compatible_types employee_df validation_df activity_df).2.2 =
      cast_id_column activity_df DataType.IntegerType := by
    simp [ensure_compatible_types, href, hact, dataTypeStr]
  rw [hcast]
  unfold cast_id_column
  exact List.mem_map.mpr ⟨(SqlValue.str s, rest), hmem, by simp [castValue, hbad]⟩

/-- Witness for the amended C3 at the spec's example value "abc". -/
theorem ensure_compatible_types_nulls_unrepresentable_witness :
    (SqlValue.null, [SqlValue.rat 30]) ∈
      (ensure_compatible_types
        { idType := DataType.IntegerType, rows := [(SqlValue.int 1, [])] }
        { idType := DataType.IntegerType, rows := [] }
        { idType := DataType.StringType,
          rows := [(SqlValue.str "abc", [SqlValue.rat 30])] }).2.2.rows :=
  ensure_compatible_types_nulls_unrepresentable _ _ _ "abc" [SqlValue.rat 30]
    rfl rfl (List.mem_singleton.mpr rfl) (by decide)

/-- C2 counterexample: a lakehouse read failing with a connection error (not
a missing table) is converted by `read_delta_table` into the FileNotFoundError
(SourceNotFound), contradicting the claim that a ConnectionError propagates
unconverted. -/
theorem read_delta_table_connection_counterexample :
    read_delta_table "activities" "sport_activities"
        (fun _ => Except.error "java.net.ConnectException: Connection refused") =
      Except.error (PipelineError.sourceNotFound
        (deltaNotFoundMsg "activities" "sport_activities")) := rfl

/-- C2 amended: `read_delta_table` returns the loaded dataframe on success
and raises SourceNotFound (FileNotFoundError) for every failure of the
lakehouse read — the catch-all handler converts connection errors and all
other read failures alike into SourceNotFound, so no other error class ever
propagates out of the lakehouse read. -/
theorem read_delta_table_all_failures_sourceNotFound (bucket table : String)
    (load : String → Except String (List (Int × ℚ))) :
    (∀ df, load (deltaTablePath bucket table) = Except.ok df →
        read_delta_table bucket table load = Except.ok df) ∧
    (∀ e, load (deltaTablePath bucket table) = Except.error e →
        read_delta_table bucket table load =
          Except.error (PipelineError.sourceNotFound (deltaNotFoundMsg bucket table))) := by
  constructor <;> intro x hx <;> simp [read_delta_table, hx]

/-- Witness for the amended C2: a concrete failing load yields SourceNotFound. -/
theorem read_delta_table_all_failures_sourceNotFound_witness :
    read_delta_table "activities" "sport_activities" (fun _ => Except.error "boom") =
      Except.error (PipelineError.sourceNotFound
        (deltaNotFoundMsg "activities" "sport_activities")) :=
  (read_delta_table_all_failures_sourceNotFound "activities" "sport_activities" _).2 "boom" rfl

/-- C5: the aggregator emits exactly one row per distinct `id_employee` of
the input (keys never repeat, and a key appears in the output exactly when it
occurs in the input, so an employee with zero activity rows is absent), with
`count_activity` the number of that employee's rows and `mean_duration` the
sum of that employee's durations divided by that count. -/
theorem transform_activity_data_spec (rows : List (Int × ℚ)) :
    ((transform_activity_data rows).map (fun r => r.1)).Nodup ∧
    (∀ k : Int, (∃ c m, (k, c, m) ∈ transform_activity_data rows) ↔ k ∈ rows.map Prod.fst) ∧
    (∀ k c m, (k, c, m) ∈ transform_activity_data rows →
        c = (rows.map Prod.fst).count k ∧
        m = ((rows.filter (fun r => r.1 == k)).map Prod.snd).sum / (c : ℚ)) := by
  refine ⟨transform_keys_nodup rows, ?_, ?_⟩
  · intro k
    constructor
    · rintro ⟨c, m, h⟩
      have : k ∈ (transform_activity_data rows).map (fun r => r.1) :=
        List.mem_map.mpr ⟨(k, c, m), h, rfl⟩
      rw [transform_map_fst] at this
      exact List.mem_dedup.mp this
    · intro hk
      refine ⟨(rows.filter (fun r => r.1 == k)).length,
        ((rows.filter (fun r => r.1 == k)).map Prod.snd).sum /
          ((rows.filter (fun r => r.1 == k)).length : ℚ), ?_⟩
      unfold transform_activity_data groupKeys
      exact List.mem_map.mpr ⟨k, List.mem_dedup.mpr hk, rfl⟩
  · intro k c m h
    unfold transform_activity_data groupKeys at h
    obtain ⟨k2, hk2, heq⟩ := List.mem_map.mp h
    simp only [Prod.mk.injEq] at heq
    obtain ⟨hk, hc, hm⟩ := heq
    subst hk
    refine ⟨?_, ?_⟩
    · rw [count_fst_eq_filter_length]
      exact hc.symm
    · rw [← hc]
      exact hm.symm

/-- Witness for C5 over a concrete activity dataset in which employee 1 has
two rows with durations 2 and 4: an aggregate row for key 1 exists, and its
count field equals the number of occurrences of key 1 in the input. -/
theorem transform_activity_data_spec_witness :
    (∃ c m, ((1 : Int), c, m) ∈
        transform_activity_data [((1 : Int), (2 : ℚ)), (1, 4), (2, 5)]) ∧
    ([((1 : Int), (2 : ℚ)), (1, 4), (2, 5)].filter (fun r => r.1 == 1)).length =
      ([((1 : Int), (2 : ℚ)), (1, 4), (2, 5)].map Prod.fst).count 1 :=
  ⟨((transform_activity_data_spec _).2.1 1).mpr (by decide),
   ((transform_activity_data_spec [((1 : Int), (2 : ℚ)), (1, 4), (2, 5)]).2.2 1
      ([((1 : Int), (2 : ℚ)), (1, 4), (2, 5)].filter (fun r => r.1 == 1)).length
      ((([((1 : Int), (2 : ℚ)), (1, 4), (2, 5)].filter (fun r => r.1 == 1)).map
          Prod.snd).sum /
        ((([((1 : Int), (2 : ℚ)), (1, 4), (2, 5)].filter (fun r => r.1 == 1)).length : Nat) : ℚ))
      (List.mem_map.mpr ⟨1, by decide, rfl⟩)).1.symm⟩

/-- C6: the inner join of employees with validations fans out — its row count
is the sum, over the employee rows, of the number of matching validation rows
(so an employee with several validations yields several rows and one with
none yields none, and no row with a validation-less id appears at all); the
left-outer join of that result with the aggregated activity has exactly the
same row count as the inner join, and an inner-join row with no matching
aggregate appears in the final result null-extended rather than absent. -/
theorem join_planner_spec (emp : List (Int × String)) (val : List (Int × ℚ))
    (activity : List (Int × ℚ)) :
    (innerJoinEmpVal emp val).length =
        (emp.map (fun e => (val.filter (fun v => v.1 == e.1)).length)).sum ∧
    (∀ i : Int, (∀ d, (i, d) ∉ val) → ∀ nm d, (i, nm, d) ∉ innerJoinEmpVal emp val) ∧
    (leftJoinAgg (innerJoinEmpVal emp val) (transform_activity_data activity)).length =
        (innerJoinEmpVal emp val).length ∧
    (∀ l ∈ innerJoinEmpVal emp val,
        (∀ a ∈ transform_activity_data activity, a.1 ≠ l.1) →
        (l.1, l.2.1, l.2.2, (none : Option (Nat × ℚ))) ∈
          leftJoinAgg (innerJoinEmpVal emp val) (transform_activity_data activity)) := by
  refine ⟨?_, ?_, leftJoinAgg_length _ _ (transform_keys_nodup activity), ?_⟩
  · unfold innerJoinEmpVal
    rw [List.flatMap_def, List.length_flatten, List.map_map]
    congr 1
    exact List.map_congr_left (fun e _ => by simp [Function.comp, List.length_map])
  · intro i hnv nm d hmem
    unfold innerJoinEmpVal at hmem
    obtain ⟨e, he, hin⟩ := List.mem_flatMap.mp hmem
    obtain ⟨v, hv, heq⟩ := List.mem_map.mp hin
    simp only [Prod.mk.injEq] at heq
    obtain ⟨hei, _, hvd⟩ := heq
    have hvval : v ∈ val := (List.mem_filter.mp hv).1
    have hvk : v.1 = e.1 := by
      have := (List.mem_filter.mp hv).2
      simpa [beq_iff_eq] using this
    have hv1 : v.1 = i := hvk.trans hei
    have hcontr : (i, v.2) ∈ val := by
      rw [← hv1, Prod.mk.eta]
      exact hvval
    exact hnv v.2 hcontr
  · intro l hl hna
    unfold leftJoinAgg
    refine List.mem_flatMap.mpr ⟨l, hl, ?_⟩
    have hfil : (transform_activity_data activity).filter (fun a => a.1 == l.1) = [] := by
      rw [List.filter_eq_nil_iff]
      intro a ha
      simp only [beq_iff_eq]
      exact hna a ha
    unfold leftMatches
    rw [hfil]
    exact List.mem_singleton.mpr rfl

/-- Witness for C6: with one employee, two validations for it and one
aggregate row under an unrelated key, no inner-join row exists for an id
without validations, and the single employee's first joined row appears in
the final result with null aggregates. -/
theorem join_planner_spec_witness :
    (∀ nm d, ((2 : Int), nm, d) ∉
        innerJoinEmpVal [((1 : Int), "Ada")] [((1 : Int), (10 : ℚ)), (1, 20)]) ∧
    ((1 : Int), "Ada", (10 : ℚ), (none : Option (Nat × ℚ))) ∈
      leftJoinAgg (innerJoinEmpVal [((1 : Int), "Ada")] [((1 : Int), (10 : ℚ)), (1, 20)])
        (transform_activity_data [((5 : Int), (7 : ℚ))]) :=
  ⟨(join_planner_spec [((1 : Int), "Ada")] [((1 : Int), (10 : ℚ)), (1, 20)]
      [((5 : Int), (7 : ℚ))]).2.1 2 (by intro d hd; simp at hd),
   (join_planner_spec [((1 : Int), "Ada")] [((1 : Int), (10 : ℚ)), (1, 20)]
      [((5 : Int), (7 : ℚ))]).2.2.2 (1, "Ada", 10) (by decide) (fun a ha => by
        have h1 : a.1 ∈ (transform_activity_data [((5 : Int), (7 : ℚ))]).map (fun r => r.1) :=
          List.mem_map.mpr ⟨a, ha, rfl⟩
        rw [transform_map_fst] at h1
        simp at h1
        rw [h1]
        decide)⟩

/-- C8: when the storage rejects the main sink write, `save_to_delta`
classifies the error text (bucket-missing vs. filesystem-scheme mismatch vs.
other) only into its printed messages and then re-raises the original error
unchanged; its outcome is successful exactly when the main write succeeded,
so a failed write never reports success. -/
theorem save_to_delta_propagates (df : DeltaDF) (output_bucket path_suffix : String)
    (storage : WriteRequest → Except String Unit) :
    (∀ e, storage (main_write_request df output_bucket path_suffix) = Except.error e →
        (save_to_delta df output_bucket path_suffix storage).result = Except.error e ∧
        List.IsSuffix (class_messages output_bucket (classify_write_error e))
          (save_to_delta df output_bucket path_suffix storage).messages) ∧
    ((save_to_delta df output_bucket path_suffix storage).result = Except.ok () ↔
        storage (main_write_request df output_bucket path_suffix) = Except.ok ()) := by
  constructor
  · intro e he
    constructor
    · simp [save_to_delta, he]
    · refine ⟨(match storage (test_write_request df output_bucket) with
        | Except.ok _ => ["Test d\x27écriture dans MinIO réussi"]
        | Except.error test_e =>
            ["Test d\x27écriture échoué, mais on continue avec l\x27écriture principale: " ++ test_e]) ++
          ["Erreur lors de la sauvegarde des données: " ++ e], ?_⟩
      simp [save_to_delta, he, List.append_assoc]
  · cases hmain : storage (main_write_request df output_bucket path_suffix) with
    | ok u => cases u; simp [save_to_delta, hmain]
    | error e => simp [save_to_delta, hmain]

/-- Witness for C8: a storage that rejects the main write with a
missing-bucket error makes `save_to_delta` fail with that very error. -/
theorem save_to_delta_propagates_witness :
    (save_to_delta { cols := ["id_employee"], rows := [] } "results" "joined_data"
        (fun req => if req.path = "s3a://results/joined_data"
          then Except.error "NoSuchBucket: results" else Except.ok ())).result =
      Except.error "NoSuchBucket: results" :=
  ((save_to_delta_propagates { cols := ["id_employee"], rows := [] } "results" "joined_data"
      (fun req => if req.path = "s3a://results/joined_data"
        then Except.error "NoSuchBucket: results" else Except.ok ())).1
    "NoSuchBucket: results" rfl).1

/-- C10: before the main sink write, `save_to_delta` always writes a limit-1
sample of its input in overwrite mode to `test_write` under the output bucket
— a side location outside the `(bucket, pathSuffix)` sink scheme — and
regardless of the test write's outcome the main write is attempted and the
call's outcome is exactly the storage's answer to the main write, so a
test-write failure never propagates. -/
theorem save_to_delta_test_write_spec (df : DeltaDF) (output_bucket path_suffix : String)
    (storage : WriteRequest → Except String Unit) :
    (save_to_delta df output_bucket path_suffix storage).attempts =
        [test_write_request df output_bucket,
          main_write_request df output_bucket path_suffix] ∧
    (test_write_request df output_bucket).path = "s3a://" ++ output_bucket ++ "/test_write" ∧
    (test_write_request df output_bucket).mode = "overwrite" ∧
    (test_write_request df output_bucket).rows = df.rows.take 1 ∧
    (test_write_request df output_bucket).rows.length ≤ 1 ∧
    (save_to_delta df output_bucket path_suffix storage).result =
        storage (main_write_request df output_bucket path_suffix) := by
  refine ⟨?_, rfl, rfl, rfl, ?_, ?_⟩
  · cases hmain : storage (main_write_request df output_bucket path_suffix) <;>
      simp [save_to_delta, hmain]
  · simp only [test_write_request, List.length_take]
    omega
  · cases hmain : storage (main_write_request df output_bucket path_suffix) with
    | ok u => cases u; simp [save_to_delta, hmain]
    | error e => simp [save_to_delta, hmain]

/-- C9: for the relational read, a DB_USER, DB_PASSWORD or DB_NAME that is
missing — unset, or empty, which the script's `if not value:` truthiness
guards treat the same way — each raises its own ValueError, the three
messages being pairwise distinct, and does so whatever the JDBC read would
answer, hence before any read I/O; missing DB_HOST and DB_PORT instead
silently default to "business-postgres" and "5432" in the connection url of
the read that is then attempted. -/
theorem read_sql_table_env_spec {α : Type} (env : String → Option String) (t : String)
    (jdbcRead : String → String → List (String × String) → Except String (List α)) :
    (isFalsy (env "DB_USER") = true →
        read_sql_table env t jdbcRead =
          Except.error (PipelineError.valueError
            "Variable d\x27environnement DB_USER non définie")) ∧
    (isFalsy (env "DB_USER") = false → isFalsy (env "DB_PASSWORD") = true →
        read_sql_table env t jdbcRead =
          Except.error (PipelineError.valueError
            "Variable d\x27environnement DB_PASSWORD non définie")) ∧
    (isFalsy (env "DB_USER") = false → isFalsy (env "DB_PASSWORD") = false →
        isFalsy (env "DB_NAME") = true →
        read_sql_table env t jdbcRead =
          Except.error (PipelineError.valueError
            "Variable d\x27environnement DB_NAME non définie")) ∧
    (("Variable d\x27environnement DB_USER non définie" ≠
        "Variable d\x27environnement DB_PASSWORD non définie") ∧
      ("Variable d\x27environnement DB_USER non définie" ≠
        "Variable d\x27environnement DB_NAME non définie") ∧
      ("Variable d\x27environnement DB_PASSWORD non définie" ≠
        "Variable d\x27environnement DB_NAME non définie")) ∧
    (∀ u p d, env "DB_USER" = some u → u ≠ "" →
        env "DB_PASSWORD" = some p → p ≠ "" →
        env "DB_NAME" = some d → d ≠ "" →
        env "DB_HOST" = none → env "DB_PORT" = none →
        read_sql_table env t jdbcRead =
          match jdbcRead (jdbcUrl "business-postgres" "5432" d) t
              [("user", u), ("password", p), ("driver", "org.postgresql.Driver")] with
          | Except.ok df => Except.ok df
          | Except.error e => Except.error (PipelineError.readError e)) := by
  refine ⟨?_, ?_, ?_, by decide, ?_⟩
  · intro h
    simp [read_sql_table, h]
  · intro hu h
    simp [read_sql_table, hu, h]
  · intro hu hp h
    simp [read_sql_table, hu, hp, h]
  · intro u p d hu hune hp hpne hd hdne hhost hport
    simp [read_sql_table, isFalsy, hu, hune, hp, hpne, hd, hdne, hhost, hport]

/-- Witness for C9: an environment with DB_USER set to the empty string
fails on DB_USER without consulting the JDBC read, and a
user/password/database-only environment reads through the defaulted url
successfully. -/
theorem read_sql_table_env_spec_witness :
    read_sql_table (fun k => if k = "DB_USER" then some "" else none)
        "sport_advantages.employees_masked"
        (fun _ _ _ => Except.ok ([] : List (Int × String))) =
      Except.error (PipelineError.valueError
        "Variable d\x27environnement DB_USER non définie") ∧
    read_sql_table
        (fun k => if k = "DB_USER" then some "u"
          else if k = "DB_PASSWORD" then some "p"
          else if k = "DB_NAME" then some "db" else none)
        "sport_advantages.employees_masked"
        (fun _ _ _ => Except.ok ([((1 : Int), "Ada")])) =
      Except.ok [((1 : Int), "Ada")] :=
  ⟨(read_sql_table_env_spec (fun k => if k = "DB_USER" then some "" else none)
      "sport_advantages.employees_masked"
      (fun _ _ _ => Except.ok ([] : List (Int × String)))).1 (by decide),
   (read_sql_table_env_spec
      (fun k => if k = "DB_USER" then some "u"
        else if k = "DB_PASSWORD" then some "p"
        else if k = "DB_NAME" then some "db" else none)
      "sport_advantages.employees_masked"
      (fun _ _ _ => Except.ok ([((1 : Int), "Ada")]))).2.2.2.2 "u" "p" "db"
      (by decide) (by decide) (by decide) (by decide) (by decide) (by decide)
      (by decide) (by decide)⟩

/-- C1: on any failing lakehouse load the run enters the FileNotFoundError
handler, which evaluates the non-existent `spark.createStructType` attribute:
the run therefore issues no write at all — in particular no zero-row
five-column artifact at the `empty_fallback` path — and terminates with an
AttributeError instead of completing cleanly. This refutes the claimed
fallback behavior; the five intended column names are bound at line 486 but
never used. -/
theorem main_fallback_attributeError (input_bucket table output_bucket : String)
    (load : String → Except String (List (Int × ℚ)))
    (env : String → Option String)
    (jdbcEmployees : String → String → List (String × String) →
      Except String (List (Int × String)))
    (jdbcValidations : String → String → List (String × String) →
      Except String (List (Int × ℚ)))
    (storage : WriteRequest → Except String Unit) (e : String)
    (h : load (deltaTablePath input_bucket table) = Except.error e) :
    main_run input_bucket table output_bucket load env jdbcEmployees jdbcValidations storage =
      ([], Except.error (PipelineError.attributeError
        "\x27SparkSession\x27 object has no attribute \x27createStructType\x27")) := by
  have hread : read_delta_table input_bucket table load =
      Except.error (PipelineError.sourceNotFound (deltaNotFoundMsg input_bucket table)) := by
    simp [read_delta_table, h]
  simp [main_run, hread, main_fallback,
    show ¬("createStructType" ∈ sparkSessionAttrs) from by decide]

/-- Witness for C1: a concrete run whose delta load fails ends in the
AttributeError with no write issued. -/
theorem main_fallback_attributeError_witness :
    main_run "activities" "sport_activities" "results" (fun _ => Except.error "missing")
        (fun _ => none) (fun _ _ _ => Except.ok []) (fun _ _ _ => Except.ok [])
        (fun _ => Except.ok ()) =
      ([], Except.error (PipelineError.attributeError
        "\x27SparkSession\x27 object has no attribute \x27createStructType\x27")) :=
  main_fallback_attributeError "activities" "sport_activities" "results" _ _ _ _ _
    "missing" rfl

/-- C4: the module binds `main` twice, and the entry-point guard resolves the
name to the later binding — the connection-test script — which neither parses
the three command-line parameters nor executes the reconciliation pipeline,
refuting the claimed command-line surface. -/
theorem script_entry_point_is_test_script :
    script_entry_point = some MainImpl.testConnectionMain ∧
    parses_cli_args MainImpl.testConnectionMain = false ∧
    runs_reconciliation_pipeline MainImpl.testConnectionMain = false := by
  decide

end ReadDelta
